import Mathlib

/-!
Verification of the wildfire-watch retrieval controller.

The controller (the `MapView` component) owns map-center, user-location,
hotspot, loading and error state; issues hotspot retrievals to a backend;
degrades to deterministic mock data when the backend is unreachable; and
notifies the parent (`App`) through the `onHotspotsUpdate` and
`onWeatherUpdate` callbacks.  `App` stores the callback payloads and hands
them to the `HotspotList` view, which renders risk counts and at most five
hotspot cards.

Numbers are modelled as rationals (JS numbers used here are small decimal
literals and sums, exactly representable), confidences as integers.
Network calls and the device geolocation capability are modelled as
explicit outcome parameters; the React `setX` state updates become a pure
state-passing function, and each optional callback invocation is recorded
as an `Option` payload (`none` = callback not invoked).
-/

/-- A detected fire point, as in the `Hotspot` interface shared by
`MapView`, `HotspotList`, `LeafletMap` and `App`. -/
structure Hotspot where
  id : Nat
  lat : ℚ
  lng : ℚ
  confidence : Int
  frp : ℚ
  detectionTime : String
  deriving DecidableEq

/-- Weather snapshot, as in the `Weather` interface. -/
structure Weather where
  temp : ℚ
  humidity : ℚ
  windSpeed : ℚ
  deriving DecidableEq

/-- The `MapView` component state: the six `useState` hooks. -/
structure MapViewState where
  userLocation : Option (ℚ × ℚ)
  mapCenter : ℚ × ℚ
  hotspots : List Hotspot
  searchQuery : String
  loading : Bool
  error : Option String
  deriving DecidableEq

/-- Initial `MapView` state (the `useState` initializers: default center
is Los Angeles, no hotspots, not loading, no error). -/
def initialState : MapViewState :=
  { userLocation := none
    mapCenter := (34.0522, -118.2437)
    hotspots := []
    searchQuery := ""
    loading := false
    error := none }

/-- The hard-coded default center `[34.0522, -118.2437]`. -/
def defaultCenter : ℚ × ℚ := (34.0522, -118.2437)

/-- The JSON body of a successful `GET /nearby-hotspots` response:
`{ weather?, hotspots?, top5? }`; each field may be absent. -/
structure FetchResponse where
  weather : Option Weather
  hotspots : Option (List Hotspot)
  top5 : Option (List Hotspot)
  deriving DecidableEq

/-- Outcome of the `axios.get` call to `/nearby-hotspots`: either a
response body, or a thrown error (network failure etc.). -/
inductive FetchOutcome where
  | success (r : FetchResponse)
  | failure
  deriving DecidableEq

/-- The payloads handed to the parent through the optional callbacks
during one handler run. `none` means the callback was not invoked. -/
structure Emitted where
  hotspotsPayload : Option (List Hotspot)
  weatherPayload : Option (Option Weather)
  deriving DecidableEq

/-- No callback was invoked. -/
def noEmit : Emitted := { hotspotsPayload := none, weatherPayload := none }

/-- The five mock hotspots synthesized in the `catch` branch of
`fetchHotspots`, at fixed offsets from the queried `(lat, lng)`. -/
def mockHotspots (lat lng : ℚ) (now : String) : List Hotspot :=
  [ { id := 1, lat := lat + 0.1, lng := lng + 0.1, confidence := 95, frp := 45.2, detectionTime := now }
  , { id := 2, lat := lat - 0.15, lng := lng + 0.2, confidence := 78, frp := 32.1, detectionTime := now }
  , { id := 3, lat := lat + 0.2, lng := lng - 0.1, confidence := 62, frp := 18.5, detectionTime := now }
  , { id := 4, lat := lat - 0.08, lng := lng - 0.15, confidence := 45, frp := 12.3, detectionTime := now }
  , { id := 5, lat := lat + 0.25, lng := lng + 0.05, confidence := 88, frp := 38.7, detectionTime := now } ]

/-- The fixed mock weather `{ temp: 32, humidity: 15, windSpeed: 25 }`. -/
def mockWeather : Weather := { temp := 32, humidity := 15, windSpeed := 25 }

/-- The `try`/`catch` body of `fetchHotspots` (everything before the
`finally`).  On success the state takes `fetchedHotspots || []` and the
parent is notified with `top5 || fetchedHotspots || []` (a present but
empty `top5` array is truthy in JS, hence taken) and `weather || null`.
On failure the error advisory is set and the mock bundle substituted. -/
def fetchHotspotsBody (lat lng : ℚ) (now : String) (res : FetchOutcome)
    (s : MapViewState) : MapViewState × Emitted :=
  let s0 := { s with loading := true, error := none }
  match res with
  | .success r =>
      let fetched := r.hotspots.getD []
      let payload :=
        match r.top5 with
        | some t => t
        | none => fetched
      ({ s0 with hotspots := fetched },
       { hotspotsPayload := some payload, weatherPayload := some r.weather })
  | .failure =>
      let mock := mockHotspots lat lng now
      ({ s0 with error := some "Using mock data (backend not available)", hotspots := mock },
       { hotspotsPayload := some mock, weatherPayload := some (some mockWeather) })

/-- `fetchHotspots(lat, lng)`: runs the `try`/`catch` body, then the
`finally` clause `setLoading(false)` on whichever branch was taken. -/
def fetchHotspots (lat lng : ℚ) (now : String) (res : FetchOutcome)
    (s : MapViewState) : MapViewState × Emitted :=
  let out := fetchHotspotsBody lat lng now res s
  ({ out.1 with loading := false }, out.2)

/-- JS `String.prototype.trim()`: strip leading and trailing whitespace.
(Defined over the character list so that it evaluates by `decide`.) -/
def jsTrim (s : String) : String :=
  String.mk (((s.data.dropWhile Char.isWhitespace).reverse.dropWhile
    Char.isWhitespace).reverse)

/-- Numeric value of a digit run, most significant first. -/
def digitsVal (cs : List Char) : Nat :=
  cs.foldl (fun a c => a * 10 + (c.toNat - Char.toNat '0')) 0

/-- JS `parseFloat`, restricted to the plain decimal literals the
geocoder returns in its `lat`/`lon` string fields: optional sign,
integer digits, optional fraction digits. -/
def parseFloat (str : String) : ℚ :=
  let cs := (jsTrim str).data
  let sgn : ℚ := if cs.headD ' ' = '-' then -1 else 1
  let cs' := if cs.headD ' ' = '-' ∨ cs.headD ' ' = '+' then cs.tail else cs
  let intPart := cs'.takeWhile Char.isDigit
  let rest := cs'.dropWhile Char.isDigit
  let fracPart :=
    match rest with
    | '.' :: t => t.takeWhile Char.isDigit
    | _ => []
  sgn * ((digitsVal intPart : ℚ) +
    (digitsVal fracPart : ℚ) / (10 : ℚ) ^ fracPart.length)

/-- One candidate of the geocoding response: `lat`/`lon` are string
fields (`const { lat, lon } = response.data[0]`). -/
structure GeoCandidate where
  lat : String
  lon : String
  deriving DecidableEq

/-- Outcome of the `axios.get` call to the geocoding endpoint: a JSON
array of candidates, or a thrown error. -/
inductive GeoOutcome where
  | success (data : List GeoCandidate)
  | failure
  deriving DecidableEq

/-- `handleSearch`: returns the new state, the coordinate a hotspot
retrieval was issued for (`none` = no retrieval issued), and the
callback payloads.  Mirrors the source: early return on blank query;
`setLoading(true)`; on at least one candidate, parse the first
candidate's coordinate, `setMapCenter`, and call `fetchHotspots`; on
zero candidates set `error = 'Location not found'` and clear loading;
on a thrown geocoding error set `error = 'Failed to search location'`
and clear loading. -/
def handleSearch (geo : GeoOutcome) (fres : FetchOutcome) (now : String)
    (s : MapViewState) : MapViewState × Option (ℚ × ℚ) × Emitted :=
  if jsTrim s.searchQuery = "" then (s, none, noEmit)
  else
    let s1 := { s with loading := true }
    match geo with
    | .success (c :: _) =>
        let newCenter : ℚ × ℚ := (parseFloat c.lat, parseFloat c.lon)
        let s2 := { s1 with mapCenter := newCenter }
        let out := fetchHotspots newCenter.1 newCenter.2 now fres s2
        (out.1, some newCenter, out.2)
    | .success [] =>
        ({ s1 with error := some "Location not found", loading := false },
         none, noEmit)
    | .failure =>
        ({ s1 with error := some "Failed to search location", loading := false },
         none, noEmit)

/-- Outcome of `navigator.geolocation.getCurrentPosition`, including the
case that the capability is absent (`navigator.geolocation` falsy). -/
inductive GeolocOutcome where
  | geoSuccess (latitude longitude : ℚ)
  | geoFailure
  | unavailable
  deriving DecidableEq

/-- The mount-time geolocation effect (`useEffect`): on a position,
adopt it as `userLocation` and `mapCenter` and fetch there; on failure
or absent capability, fetch for the default center without touching any
other state.  Returns state, issued-retrieval coordinate, payloads. -/
def geolocationEffect (g : GeolocOutcome) (fres : FetchOutcome) (now : String)
    (s : MapViewState) : MapViewState × Option (ℚ × ℚ) × Emitted :=
  match g with
  | .geoSuccess la ln =>
      let s1 := { s with userLocation := some (la, ln), mapCenter := (la, ln) }
      let out := fetchHotspots la ln now fres s1
      (out.1, some (la, ln), out.2)
  | .geoFailure =>
      let out := fetchHotspots defaultCenter.1 defaultCenter.2 now fres s
      (out.1, some defaultCenter, out.2)
  | .unavailable =>
      let out := fetchHotspots defaultCenter.1 defaultCenter.2 now fres s
      (out.1, some defaultCenter, out.2)

/-- `App`: `onHotspotsUpdate={setHotspots}`, `onWeatherUpdate={setWeather}`.
Applying one handler run's callback payloads to `App`'s state (a callback
that was not invoked leaves the corresponding state alone). -/
def appApplyEmit (appHotspots : List Hotspot) (appWeather : Option Weather)
    (e : Emitted) : List Hotspot × Option Weather :=
  (e.hotspotsPayload.getD appHotspots, e.weatherPayload.getD appWeather)

/-- Badge text color in `HotspotList` (`getConfidenceColor`). -/
def getConfidenceColor (confidence : Int) : String :=
  if confidence ≥ 80 then "text-danger"
  else if confidence ≥ 50 then "text-warning"
  else "text-caution"

/-- Badge background/border in `HotspotList` (`getConfidenceBg`). -/
def getConfidenceBg (confidence : Int) : String :=
  if confidence ≥ 80 then "bg-danger/20 border-danger/30"
  else if confidence ≥ 50 then "bg-warning/20 border-warning/30"
  else "bg-caution/20 border-caution/30"

/-- Marker color chosen by `createMarkerIcon` (`LeafletMap`/`MapView`). -/
def markerColor (confidence : Int) : String :=
  if confidence ≥ 80 then "#ef4444"
  else if confidence ≥ 50 then "#f97316"
  else "#eab308"

/-- The three confidence buckets used throughout the UI. -/
inductive ConfidenceBucket where
  | high
  | medium
  | low
  deriving DecidableEq

/-- The bucket a confidence value falls in, following the shared
`>= 80` / `>= 50` / otherwise chain of the source. -/
def bucketOf (confidence : Int) : ConfidenceBucket :=
  if confidence ≥ 80 then .high
  else if confidence ≥ 50 then .medium
  else .low

/-- Stats bar: `hotspots.filter(h => h.confidence >= 80).length`. -/
def countHigh (hotspots : List Hotspot) : Nat :=
  (hotspots.filter fun h => decide (h.confidence ≥ 80)).length

/-- Stats bar:
`hotspots.filter(h => h.confidence >= 50 && h.confidence < 80).length`. -/
def countMedium (hotspots : List Hotspot) : Nat :=
  (hotspots.filter fun h =>
    decide (h.confidence ≥ 50) && decide (h.confidence < 80)).length

/-- Stats bar: `hotspots.filter(h => h.confidence < 50).length`. -/
def countLow (hotspots : List Hotspot) : Nat :=
  (hotspots.filter fun h => decide (h.confidence < 50)).length

/-- `HotspotList` renders the no-hotspots state exactly when the
condition `hotspots.length > 0` fails. -/
def hotspotListShowsEmpty (hotspots : List Hotspot) : Bool :=
  !(decide (hotspots.length > 0))

/-- `HotspotList` renders the cards `hotspots.slice(0, 5)`. -/
def displayedCards (hotspots : List Hotspot) : List Hotspot :=
  hotspots.take 5

example :
    (fetchHotspots 1 2 "t" .failure initialState).1.hotspots =
      mockHotspots 1 2 "t" := rfl

example : (fetchHotspots 1 2 "t" .failure initialState).1.loading = false :=
  rfl

example :
    (fetchHotspots 1 2 "t"
      (.success { weather := none, hotspots := some [], top5 := none })
      initialState).1.hotspots = [] := rfl

example : jsTrim "  Paris " = "Paris" := by decide

example : parseFloat "40.7128" = 40.7128 := by
  simp +decide [parseFloat, jsTrim, digitsVal]
  norm_num

example : parseFloat "-74.0060" = -74.0060 := by
  simp +decide [parseFloat, jsTrim, digitsVal]
  norm_num

/-- C1: For every invocation of the hotspot retrieval operation
(`fetchHotspots`), regardless of whether the remote request succeeds or
fails, the operation terminates with `loading = false`; no execution
path leaves `loading` true after the retrieval completes. -/
theorem fetchHotspots_clears_loading (lat lng : ℚ) (now : String)
    (res : FetchOutcome) (s : MapViewState) :
    (fetchHotspots lat lng now res s).1.loading = false := by
  cases res <;> rfl

/-- C2: On every retrieval failure at queried coordinate `(lat, lng)`,
the resulting hotspots are exactly the 5 mock hotspots at the fixed
offsets from the queried coordinate, with confidences
`[95, 78, 62, 45, 88]` and FRPs `[45.2, 32.1, 18.5, 12.3, 38.7]` in that
order, and the weather callback receives `{temp 32, humidity 15,
windSpeed 25}`; the positions are a function of the queried coordinate
alone. -/
theorem fetchHotspots_failure_mock (lat lng : ℚ) (now : String)
    (s : MapViewState) :
    (fetchHotspots lat lng now .failure s).1.hotspots =
      [ { id := 1, lat := lat + 0.1, lng := lng + 0.1, confidence := 95, frp := 45.2, detectionTime := now }
      , { id := 2, lat := lat - 0.15, lng := lng + 0.2, confidence := 78, frp := 32.1, detectionTime := now }
      , { id := 3, lat := lat + 0.2, lng := lng - 0.1, confidence := 62, frp := 18.5, detectionTime := now }
      , { id := 4, lat := lat - 0.08, lng := lng - 0.15, confidence := 45, frp := 12.3, detectionTime := now }
      , { id := 5, lat := lat + 0.25, lng := lng + 0.05, confidence := 88, frp := 38.7, detectionTime := now } ] ∧
    (fetchHotspots lat lng now .failure s).2.hotspotsPayload =
      some (fetchHotspots lat lng now .failure s).1.hotspots ∧
    (fetchHotspots lat lng now .failure s).2.weatherPayload =
      some (some { temp := 32, humidity := 15, windSpeed := 25 }) :=
  ⟨rfl, rfl, rfl⟩

/-- C3: For every successful retrieval response, the ranked subset
handed to the list consumer through `onHotspotsUpdate` equals the
server-provided `top5` field when that field is present, and otherwise
equals the returned hotspots sequence as-is (no client-side re-ranking
or re-sorting). -/
theorem fetchHotspots_success_topRanked (lat lng : ℚ) (now : String)
    (r : FetchResponse) (s : MapViewState) :
    (∀ t, r.top5 = some t →
      (fetchHotspots lat lng now (.success r) s).2.hotspotsPayload = some t) ∧
    (∀ hs, r.top5 = none → r.hotspots = some hs →
      (fetchHotspots lat lng now (.success r) s).2.hotspotsPayload = some hs) := by
  constructor
  · intro t ht
    simp [fetchHotspots, fetchHotspotsBody, ht]
  · intro hs ht hh
    simp [fetchHotspots, fetchHotspotsBody, ht, hh]

/-- A sample hotspot used to instantiate the C3 theorem. -/
def sampleHotspot : Hotspot :=
  { id := 7, lat := 3, lng := 4, confidence := 70, frp := 9, detectionTime := "t" }

theorem fetchHotspots_success_topRanked_witness :
    (fetchHotspots 0 0 "t"
      (.success { weather := none, hotspots := some [], top5 := some [sampleHotspot] })
      initialState).2.hotspotsPayload = some [sampleHotspot] ∧
    (fetchHotspots 0 0 "t"
      (.success { weather := none, hotspots := some [sampleHotspot], top5 := none })
      initialState).2.hotspotsPayload = some [sampleHotspot] :=
  ⟨(fetchHotspots_success_topRanked 0 0 "t"
      { weather := none, hotspots := some [], top5 := some [sampleHotspot] }
      initialState).1 [sampleHotspot] rfl,
   (fetchHotspots_success_topRanked 0 0 "t"
      { weather := none, hotspots := some [sampleHotspot], top5 := none }
      initialState).2 [sampleHotspot] rfl rfl⟩

/-- C5: Confidence bucketing is a total, non-overlapping partition
applied consistently wherever confidence appears: for every confidence
value 0-100, the bucket is High iff confidence ≥ 80, Medium iff
50 ≤ confidence < 80, Low iff confidence < 50 (so exactly one applies,
with the boundary values 80 and 50 classified High and Medium), and the
badge color, badge background and marker color are each determined by
that same bucket. -/
theorem confidence_bucketing (c : Int) (h0 : 0 ≤ c) (h1 : c ≤ 100) :
    ((bucketOf c = .high ↔ 80 ≤ c) ∧
     (bucketOf c = .medium ↔ 50 ≤ c ∧ c < 80) ∧
     (bucketOf c = .low ↔ c < 50)) ∧
    bucketOf 80 = .high ∧ bucketOf 50 = .medium ∧
    getConfidenceColor c =
      (match bucketOf c with
       | .high => "text-danger"
       | .medium => "text-warning"
       | .low => "text-caution") ∧
    getConfidenceBg c =
      (match bucketOf c with
       | .high => "bg-danger/20 border-danger/30"
       | .medium => "bg-warning/20 border-warning/30"
       | .low => "bg-caution/20 border-caution/30") ∧
    markerColor c =
      (match bucketOf c with
       | .high => "#ef4444"
       | .medium => "#f97316"
       | .low => "#eab308") := by
  by_cases h80 : (80 : Int) ≤ c
  · have hb : bucketOf c = .high := by simp [bucketOf, ge_iff_le, h80]
    refine ⟨⟨?_, ?_, ?_⟩, by decide, by decide, ?_, ?_, ?_⟩
    · rw [hb]; simp; omega
    · rw [hb]; simp; omega
    · rw [hb]; simp; omega
    · simp [getConfidenceColor, ge_iff_le, h80, hb]
    · simp [getConfidenceBg, ge_iff_le, h80, hb]
    · simp [markerColor, ge_iff_le, h80, hb]
  · by_cases h50 : (50 : Int) ≤ c
    · have hb : bucketOf c = .medium := by simp [bucketOf, ge_iff_le, h80, h50]
      refine ⟨⟨?_, ?_, ?_⟩, by decide, by decide, ?_, ?_, ?_⟩
      · rw [hb]; simp; omega
      · rw [hb]; simp; omega
      · rw [hb]; simp; omega
      · simp [getConfidenceColor, ge_iff_le, h80, h50, hb]
      · simp [getConfidenceBg, ge_iff_le, h80, h50, hb]
      · simp [markerColor, ge_iff_le, h80, h50, hb]
    · have hb : bucketOf c = .low := by simp [bucketOf, ge_iff_le, h80, h50]
      refine ⟨⟨?_, ?_, ?_⟩, by decide, by decide, ?_, ?_, ?_⟩
      · rw [hb]; simp; omega
      · rw [hb]; simp; omega
      · rw [hb]; simp; omega
      · simp [getConfidenceColor, ge_iff_le, h80, h50, hb]
      · simp [getConfidenceBg, ge_iff_le, h80, h50, hb]
      · simp [markerColor, ge_iff_le, h80, h50, hb]

theorem confidence_bucketing_witness :
    bucketOf 80 = .high ∧ bucketOf 50 = .medium :=
  ⟨(confidence_bucketing 80 (by decide) (by decide)).2.1,
   (confidence_bucketing 50 (by decide) (by decide)).2.2.1⟩

/-- A sample high-confidence hotspot (confidence 90). -/
def highHotspot : Hotspot :=
  { id := 1, lat := 0, lng := 0, confidence := 90, frp := 1, detectionTime := "t" }

/-- A sample medium-confidence hotspot (confidence 60). -/
def mediumHotspot : Hotspot :=
  { id := 2, lat := 0, lng := 0, confidence := 60, frp := 1, detectionTime := "t" }

/-- A successful response whose ranked subset `top5` is a strict subset
of the returned hotspots. -/
def rankedSubsetResponse : FetchResponse :=
  { weather := none
    hotspots := some [highHotspot, mediumHotspot]
    top5 := some [highHotspot] }

/-- The controller state and callback payloads after fetching
`rankedSubsetResponse`. -/
def rankedSubsetOut : MapViewState × Emitted :=
  fetchHotspots 0 0 "t" (.success rankedSubsetResponse) initialState

/-- The sequence the list view receives for `rankedSubsetResponse`:
`App` stores the `onHotspotsUpdate` payload and passes it to
`HotspotList` as its `hotspots` prop. -/
def rankedSubsetListViewInput : List Hotspot :=
  (appApplyEmit [] none rankedSubsetOut.2).1

/-- C4, counterexample: when the server provides a ranked subset, the
risk counts computed by the list view run over that subset — not over
the full `hotspots` sequence held by the Controller — so they differ
from the counts over the Controller's sequence and their sum misses the
Controller sequence's length. -/
theorem riskCounts_not_over_controller_hotspots :
    countMedium rankedSubsetListViewInput ≠
      countMedium rankedSubsetOut.1.hotspots ∧
    countHigh rankedSubsetListViewInput + countMedium rankedSubsetListViewInput +
      countLow rankedSubsetListViewInput ≠ rankedSubsetOut.1.hotspots.length := by
  decide

/-- C4 (amended): the aggregate High/Medium/Low risk counts are a
partition count over the hotspot sequence the list view receives (the
server's ranked subset when present, otherwise the fetched or mock
hotspots), not over the Controller's full sequence; for any hotspot
sequence the three counts sum exactly to the sequence's length. -/
theorem riskCounts_partition (hotspots : List Hotspot) :
    countHigh hotspots + countMedium hotspots + countLow hotspots =
      hotspots.length := by
  induction hotspots with
  | nil => rfl
  | cons h t ih =>
      simp only [countHigh, countMedium, countLow, List.filter_cons,
        List.length_cons] at ih ⊢
      split_ifs with h1 h2 h3 <;> simp_all <;> omega

/-- C6: for every search whose geocoding call returns zero candidates
(on a non-blank query), the handler sets `error = 'Location not
found'`, ends with `loading = false`, issues no hotspot retrieval, and
leaves the previous hotspots, center and all other state unchanged. -/
theorem handleSearch_location_not_found (fres : FetchOutcome) (now : String)
    (s : MapViewState) (hq : jsTrim s.searchQuery ≠ "") :
    handleSearch (.success []) fres now s =
      ({ s with error := some "Location not found", loading := false },
       none, noEmit) := by
  simp [handleSearch, hq]

/-- A state with a non-blank search query. -/
def searchState : MapViewState := { initialState with searchQuery := "Nowhere" }

theorem handleSearch_location_not_found_witness :
    handleSearch (.success []) .failure "t" searchState =
      ({ searchState with error := some "Location not found", loading := false },
       none, noEmit) :=
  handleSearch_location_not_found .failure "t" searchState (by decide)

/-- C7: on device geolocation failure, and when the geolocation
capability is absent, a retrieval is issued for the hard-coded default
coordinate (34.0522, -118.2437), the center remains that default, and
the error field is never assigned a geolocation error (it is either
absent or the retrieval's own backend advisory). -/
theorem geolocation_failure_defaults (g : GeolocOutcome) (fres : FetchOutcome)
    (now : String) (s : MapViewState)
    (hg : g = .geoFailure ∨ g = .unavailable) (hc : s.mapCenter = defaultCenter) :
    (geolocationEffect g fres now s).2.1 = some defaultCenter ∧
    (geolocationEffect g fres now s).1.mapCenter = defaultCenter ∧
    ((geolocationEffect g fres now s).1.error = none ∨
     (geolocationEffect g fres now s).1.error =
       some "Using mock data (backend not available)") := by
  rcases hg with hg | hg <;> subst hg <;> cases fres <;>
    simp [geolocationEffect, fetchHotspots, fetchHotspotsBody, hc]

theorem geolocation_failure_defaults_witness :
    (geolocationEffect .geoFailure .failure "t" initialState).2.1 =
      some defaultCenter ∧
    (geolocationEffect .geoFailure .failure "t" initialState).1.mapCenter =
      defaultCenter ∧
    ((geolocationEffect .geoFailure .failure "t" initialState).1.error = none ∨
     (geolocationEffect .geoFailure .failure "t" initialState).1.error =
       some "Using mock data (backend not available)") :=
  geolocation_failure_defaults .geoFailure .failure "t" initialState
    (Or.inl rfl) rfl

/-- C8: for every search (on a non-blank query) whose geocoding call
returns at least one candidate, the center becomes the first
candidate's coordinate — its `lat`/`lon` string fields parsed as floats
— a retrieval is issued for exactly that coordinate, and `userLocation`
is left unchanged. -/
theorem handleSearch_first_candidate (c : GeoCandidate)
    (rest : List GeoCandidate) (fres : FetchOutcome) (now : String)
    (s : MapViewState) (hq : jsTrim s.searchQuery ≠ "") :
    (handleSearch (.success (c :: rest)) fres now s).1.mapCenter =
      (parseFloat c.lat, parseFloat c.lon) ∧
    (handleSearch (.success (c :: rest)) fres now s).2.1 =
      some (parseFloat c.lat, parseFloat c.lon) ∧
    (handleSearch (.success (c :: rest)) fres now s).1.userLocation =
      s.userLocation := by
  cases fres <;> simp [handleSearch, hq, fetchHotspots, fetchHotspotsBody]

/-- The geocoder candidate of the spec's search scenario (New York). -/
def nycCandidate : GeoCandidate := { lat := "40.7128", lon := "-74.0060" }

theorem handleSearch_first_candidate_witness :
    (handleSearch (.success [nycCandidate]) .failure "t" searchState).1.mapCenter =
      (parseFloat "40.7128", parseFloat "-74.0060") ∧
    (handleSearch (.success [nycCandidate]) .failure "t" searchState).2.1 =
      some (parseFloat "40.7128", parseFloat "-74.0060") ∧
    (handleSearch (.success [nycCandidate]) .failure "t" searchState).1.userLocation =
      searchState.userLocation :=
  handleSearch_first_candidate nycCandidate [] .failure "t" searchState (by decide)

/-- C9: a successful retrieval whose response carries empty `hotspots`
and `top5` arrays leaves the controller with an empty hotspot sequence
and no error (empty is not a failure: the mock fallback is not
triggered), and the list view — fed through `App` with the emitted
payload — renders the no-hotspots state. -/
theorem fetchHotspots_empty_success (lat lng : ℚ) (now : String)
    (r : FetchResponse) (s : MapViewState) (appHs : List Hotspot)
    (appW : Option Weather) (hh : r.hotspots = some [])
    (ht : r.top5 = some []) :
    (fetchHotspots lat lng now (.success r) s).1.hotspots = [] ∧
    (fetchHotspots lat lng now (.success r) s).1.error = none ∧
    (fetchHotspots lat lng now (.success r) s).2.hotspotsPayload = some [] ∧
    hotspotListShowsEmpty
      (appApplyEmit appHs appW (fetchHotspots lat lng now (.success r) s).2).1 =
      true := by
  simp [fetchHotspots, fetchHotspotsBody, hh, ht, appApplyEmit,
    hotspotListShowsEmpty]

theorem fetchHotspots_empty_success_witness :
    (fetchHotspots 1 2 "t"
      (.success { weather := none, hotspots := some [], top5 := some [] })
      initialState).1.hotspots = [] ∧
    (fetchHotspots 1 2 "t"
      (.success { weather := none, hotspots := some [], top5 := some [] })
      initialState).1.error = none ∧
    (fetchHotspots 1 2 "t"
      (.success { weather := none, hotspots := some [], top5 := some [] })
      initialState).2.hotspotsPayload = some [] ∧
    hotspotListShowsEmpty
      (appApplyEmit [highHotspot] none
        (fetchHotspots 1 2 "t"
          (.success { weather := none, hotspots := some [], top5 := some [] })
          initialState).2).1 = true :=
  fetchHotspots_empty_success 1 2 "t"
    { weather := none, hotspots := some [], top5 := some [] }
    initialState [highHotspot] none rfl rfl

/-- C10: a search submission whose query text is blank (empty or only
whitespace) returns without mutating any state, without invoking the
geocoder or issuing a retrieval, and without notifying the parent: the
result is the unchanged state for every possible geocoding and
retrieval outcome. -/
theorem handleSearch_blank_query (geo : GeoOutcome) (fres : FetchOutcome)
    (now : String) (s : MapViewState) (hq : jsTrim s.searchQuery = "") :
    handleSearch geo fres now s = (s, none, noEmit) := by
  simp [handleSearch, hq]

/-- A state whose search query is whitespace only. -/
def whitespaceState : MapViewState := { initialState with searchQuery := "   " }

theorem handleSearch_blank_query_witness :
    handleSearch (.success [nycCandidate]) .failure "t" whitespaceState =
      (whitespaceState, none, noEmit) :=
  handleSearch_blank_query (.success [nycCandidate]) .failure "t"
    whitespaceState (by decide)
